import Mathlib

/-!
Verification of the basketball probability-arbitrage strategy
(src/Live_Trading_Algo.py) against its specification.

Shallow embedding: Python floats are modelled as rationals (ℚ), Python ints
as ℤ, strings as Lean String, `None` as `Option.none`.  The mutable
`Strategy` object becomes an explicit `State` record; each callback becomes a
function `State → ... → List Action × State` where `Action` records the calls
made to the external venue API (`place_market_order`, `place_limit_order`,
`cancel_order`).  `math.exp` is transcendental, so the event handler is
parameterised by a function `expQ : ℚ → ℚ` standing for `math.exp`; no claim
below depends on the value of `expQ` (the clamping and assignments that the
claims are about are independent of the decay factor), and counterexample
traces only evaluate it at `0`, where `exp 0 = 1` is matched exactly.
-/

namespace LiveTradingAlgo

/-- Order side, from the `Side` enum. -/
inductive Side where
  | BUY
  | SELL
deriving DecidableEq, Repr

/-- Instrument, from the `Ticker` enum (single instrument TEAM_A). -/
inductive Ticker where
  | TEAM_A
deriving DecidableEq, Repr

/-- A call made to the external venue API during a callback. -/
inductive Action where
  | placeMarketOrder (side : Side) (ticker : Ticker) (quantity : ℚ)
  | placeLimitOrder (side : Side) (ticker : Ticker) (quantity : ℚ) (price : ℚ)
  | cancelOrder (ticker : Ticker) (order_id : ℤ)
deriving DecidableEq, Repr

/-- The mutable fields of the `Strategy` object, exactly the attributes
assigned in `reset_state`. -/
structure State where
  home_score : ℤ
  away_score : ℤ
  time_remaining : ℚ
  position : ℚ
  capital : ℚ
  cash : ℚ
  portfolio_value : ℚ
  max_position_size : ℚ
  max_portfolio_risk : ℚ
  kelly_fraction : ℚ
  min_trade_size : ℚ
  model_prob : ℚ
  market_price : ℚ
  home_momentum : ℚ
  away_momentum : ℚ
  recent_events : List String
  active_orders : List ℤ
  last_event_time : Option ℚ
  momentum_tau : ℚ
deriving DecidableEq, Repr

/-- `Strategy.reset_state`: the start-of-game state. -/
def reset_state : State where
  home_score := 0
  away_score := 0
  time_remaining := 2880
  position := 0
  capital := 100000
  cash := 100000
  portfolio_value := 100000
  max_position_size := 20000
  max_portfolio_risk := 0.1
  kelly_fraction := 1
  min_trade_size := 100
  model_prob := 0.55
  market_price := 55
  home_momentum := 0
  away_momentum := 0
  recent_events := []
  active_orders := []
  last_event_time := none
  momentum_tau := 180

/-- `Strategy.market_price_to_probability`. -/
def market_price_to_probability (price : ℚ) : ℚ :=
  (price - 50) / 100

/-- `Strategy.probability_to_price`. -/
def probability_to_price (probability : ℚ) : ℚ :=
  50 + probability * 100

/-- `Strategy.calculate_true_probability`. -/
def calculate_true_probability (s : State) : ℚ :=
  if s.time_remaining ≤ 0 then
    if s.home_score > s.away_score then 1
    else if s.home_score < s.away_score then 0
    else 0.5
  else
    let base_prob : ℚ := 0.55
    let score_diff : ℚ := (s.home_score : ℚ) - (s.away_score : ℚ)
    let time_factor : ℚ := 1 - s.time_remaining / 2880
    let score_impact : ℚ := score_diff * 0.02 * (1 + time_factor * 2)
    let momentum_impact : ℚ := (s.home_momentum - s.away_momentum) * 0.005
    let true_prob : ℚ := base_prob + score_impact + momentum_impact
    max 0.05 (min 0.95 true_prob)

/-- The value of the local variable `impact` in `Strategy.get_event_impact`
just before the `if home_away == "away"` negation. -/
def base_impact (event_type : String) (shot_type : Option String) : ℚ :=
  if event_type = "SCORE" then
    if shot_type = some "THREE_POINT" then 4
    else if shot_type = some "DUNK" then 5
    else 3
  else if event_type = "MISSED" then -1
  else if event_type = "TURNOVER" then -2
  else if event_type = "STEAL" then 2
  else if event_type = "BLOCK" then 1.5
  else if event_type = "FOUL" then -1
  else 0

/-- `Strategy.get_event_impact`.  `home_away` is `Option String` because the
Python parameter can be `None` at runtime despite its `str` annotation. -/
def get_event_impact (event_type : String) (home_away : Option String)
    (shot_type : Option String) : ℚ :=
  let impact := base_impact event_type shot_type
  if home_away = some "away" then -impact else impact

/-- The market orders emitted by the liquidation snippet
`if self.position > 0: place_market_order(SELL, ...) elif self.position < 0:
place_market_order(BUY, ...)` that every risk trigger and the end-of-game
branch execute. -/
def close_position_actions (s : State) : List Action :=
  if s.position > 0 then [Action.placeMarketOrder Side.SELL Ticker.TEAM_A |s.position|]
  else if s.position < 0 then [Action.placeMarketOrder Side.BUY Ticker.TEAM_A |s.position|]
  else []

/-- Which risk trigger fired in `Strategy.check_risk_management`
(identified by the diagnostic print in each branch). -/
inductive Trigger where
  | takeProfit
  | stopLoss
  | lateGameExit
deriving DecidableEq, Repr

/-- `Strategy.check_risk_management`: returns which trigger fired (if any),
the venue calls made, and the resulting state. -/
def check_risk_management (s : State) : Option Trigger × List Action × State :=
  let pnl := s.portfolio_value - 100000
  let tp_level := s.kelly_fraction * 80000
  let sl_level := -s.kelly_fraction * 50000
  if pnl ≥ tp_level then
    (some Trigger.takeProfit, close_position_actions s, reset_state)
  else if pnl ≤ sl_level then
    (some Trigger.stopLoss, close_position_actions s, reset_state)
  else
    let score_diff := |s.home_score - s.away_score|
    if s.time_remaining < 600 ∧ score_diff < 5 ∧ pnl > 55000 then
      (some Trigger.lateGameExit, close_position_actions s, reset_state)
    else
      (none, [], s)

/-- `Strategy.should_trade`: returns the tuple
`(trade?, side, probability_edge)`. -/
def should_trade (model_prob : ℚ) (market_price : ℚ) : Bool × Option Side × ℚ :=
  let market_prob := market_price_to_probability market_price
  let confidence_threshold : ℚ := 0.03
  if model_prob > market_prob + confidence_threshold then
    (true, some Side.BUY, model_prob - market_prob)
  else if model_prob < market_prob - confidence_threshold then
    (true, some Side.SELL, market_prob - model_prob)
  else
    (false, none, 0)

/-- The local variable `upside` of `Strategy.calculate_position_size`. -/
def upside (side : Side) (market_price : ℚ) : ℚ :=
  match side with
  | Side.BUY => 150 - market_price
  | Side.SELL => market_price - 50

/-- The local variable `downside` of `Strategy.calculate_position_size`. -/
def downside (side : Side) (market_price : ℚ) : ℚ :=
  match side with
  | Side.BUY => market_price - 50
  | Side.SELL => 150 - market_price

/-- `Strategy.calculate_position_size`. -/
def calculate_position_size (s : State) (probability_edge : ℚ) (side : Side)
    (market_price : ℚ) : ℚ :=
  let up := upside side market_price
  let down := downside side market_price
  if up ≤ 0 ∨ down ≤ 0 then 0
  else
    let win_prob := max 0.51 (min 0.95 (0.5 + probability_edge * 2))
    let lose_prob := 1 - win_prob
    let b := up / down
    let kelly0 := if b > 0 then (win_prob * b - lose_prob) / b else 0
    let kelly := max 0 kelly0 * s.kelly_fraction
    let position_dollars0 :=
      min (min (s.capital * kelly) s.max_position_size)
        (if side = Side.BUY then s.cash else |s.position| * market_price)
    let position_dollars := max s.min_trade_size position_dollars0
    let shares := position_dollars / market_price
    max 1 shares

/-- `Strategy.can_afford_trade`. -/
def can_afford_trade (s : State) (side : Side) (quantity : ℚ) (price : ℚ) : Bool :=
  match side with
  | Side.BUY => decide (quantity * price ≤ s.cash ∧ quantity ≤ s.max_position_size)
  | Side.SELL => decide (quantity ≤ s.max_position_size)

/-- `Strategy.update_portfolio_value`. -/
def update_portfolio_value (s : State) : State :=
  let position_value := s.position * s.market_price
  { s with portfolio_value := s.cash + position_value }

/-- `Strategy.on_orderbook_update` (ticker, side, quantity only logged). -/
def on_orderbook_update (s : State) (price : ℚ) : State :=
  update_portfolio_value { s with market_price := price }

/-- `Strategy.on_account_update`. -/
def on_account_update (s : State) (side : Side) (price : ℚ) (quantity : ℚ)
    (capital_remaining : ℚ) : State :=
  let trade_value := quantity * price
  let s1 :=
    match side with
    | Side.BUY => { s with position := s.position + quantity, cash := s.cash - trade_value }
    | Side.SELL => { s with position := s.position - quantity, cash := s.cash + trade_value }
  update_portfolio_value { s1 with capital := capital_remaining }

/-- A game event: the parameters of `Strategy.on_game_event_update`.
`home_away` is `Option String` since Python may pass `None` despite the
`str` annotation; the fields never read by the body (player names, assist,
rebound, coordinates) are carried but unused, as in the source. -/
structure GameEvent where
  event_type : String
  home_away : Option String
  home_score : ℤ
  away_score : ℤ
  player_name : Option String := none
  substituted_player_name : Option String := none
  shot_type : Option String := none
  assist_player : Option String := none
  rebound_type : Option String := none
  coordinate_x : Option ℚ := none
  coordinate_y : Option ℚ := none
  time_seconds : Option ℚ := none
deriving DecidableEq, Repr

/-- Lines 282-289 of `on_game_event_update`: momentum decay.  `expQ` stands
for `math.exp`; `dt = max(0, last_event_time - time_seconds)` with
`last_event_time` seeded to `time_seconds` when previously `None`. -/
def momentum_decay (expQ : ℚ → ℚ) (s : State) (time_seconds : Option ℚ) : State :=
  match time_seconds with
  | none => s
  | some ts =>
    let last := s.last_event_time.getD ts
    let dt := max 0 (last - ts)
    let decay := expQ (-dt / s.momentum_tau)
    { s with home_momentum := s.home_momentum * decay,
             away_momentum := s.away_momentum * decay,
             last_event_time := some ts }

/-- Lines 292-296 of `on_game_event_update`: copy scores, and the time when
the event carries one. -/
def apply_scores (s : State) (e : GameEvent) : State :=
  let s1 := { s with home_score := e.home_score, away_score := e.away_score }
  match e.time_seconds with
  | none => s1
  | some ts => { s1 with time_remaining := ts }

/-- Lines 299-303 of `on_game_event_update`: add the event impact to the
momentum of the acting side (`home_momentum` only when `home_away` is
exactly `"home"`, `away_momentum` otherwise). -/
def apply_momentum (s : State) (e : GameEvent) : State :=
  let impact := get_event_impact e.event_type e.home_away e.shot_type
  if e.home_away = some "home" then
    { s with home_momentum := s.home_momentum + impact }
  else
    { s with away_momentum := s.away_momentum + impact }

/-- Lines 282-305 of `on_game_event_update`: the full state update preceding
the trading decision, ending with `model_prob = calculate_true_probability()`. -/
def pre_trade_state (expQ : ℚ → ℚ) (s : State) (e : GameEvent) : State :=
  let s3 := apply_momentum (apply_scores (momentum_decay expQ s e.time_seconds) e) e
  { s3 with model_prob := calculate_true_probability s3 }

/-- Lines 314-342 of `on_game_event_update`: the trade-decision branch.
`place_limit_order` is a stub returning `0`, and `if order_id:` is false at
`0`, so no id is appended to `active_orders`. -/
def trade_step (s : State) : List Action × State :=
  match should_trade s.model_prob s.market_price with
  | (true, some side, probability_edge) =>
    let cancel_acts := s.active_orders.map (fun oid => Action.cancelOrder Ticker.TEAM_A oid)
    let s1 := { s with active_orders := [] }
    let quantity := calculate_position_size s1 probability_edge side s1.market_price
    if can_afford_trade s1 side quantity s1.market_price ∧ quantity > 0 then
      let target_price := s1.market_price
      let order_id : ℤ := 0
      let s2 := if order_id ≠ 0
                then { s1 with active_orders := s1.active_orders ++ [order_id] }
                else s1
      (cancel_acts ++ [Action.placeLimitOrder side Ticker.TEAM_A quantity target_price], s2)
    else
      (cancel_acts, s1)
  | _ => ([], s)

/-- Lines 355-364 of `on_game_event_update`: the end-of-game branch. -/
def end_game_step (s : State) (e : GameEvent) : List Action × State :=
  if e.event_type = "END_GAME" ∨ s.time_remaining < 3 then
    (close_position_actions s, reset_state)
  else
    ([], s)

/-- `Strategy.on_game_event_update`: the composed main trading logic, returning
the venue calls made and the final state. -/
def on_game_event_update (expQ : ℚ → ℚ) (s : State) (e : GameEvent) :
    List Action × State :=
  let s4 := pre_trade_state expQ s e
  let ts := trade_step s4
  let s6 := update_portfolio_value ts.2
  let cr := check_risk_management s6
  let eg := end_game_step cr.2.2 e
  (ts.1 ++ cr.2.1 ++ eg.1, eg.2)

/-- The order ids passed to `cancel_order` among a list of venue calls. -/
def cancelled_ids : List Action → List ℤ
  | [] => []
  | Action.cancelOrder _ oid :: rest => oid :: cancelled_ids rest
  | _ :: rest => cancelled_ids rest

/-- The invariant `portfolio_value = cash + position * market_price`. -/
def portfolio_invariant (s : State) : Prop :=
  s.portfolio_value = s.cash + s.position * s.market_price

/-! ### Helper lemmas about the individual stages -/

lemma pre_trade_state_proj (expQ : ℚ → ℚ) (s : State) (e : GameEvent) :
    (pre_trade_state expQ s e).cash = s.cash ∧
    (pre_trade_state expQ s e).position = s.position ∧
    (pre_trade_state expQ s e).market_price = s.market_price ∧
    (pre_trade_state expQ s e).capital = s.capital ∧
    (pre_trade_state expQ s e).kelly_fraction = s.kelly_fraction ∧
    (pre_trade_state expQ s e).max_position_size = s.max_position_size ∧
    (pre_trade_state expQ s e).min_trade_size = s.min_trade_size ∧
    (pre_trade_state expQ s e).portfolio_value = s.portfolio_value ∧
    (pre_trade_state expQ s e).active_orders = s.active_orders ∧
    (pre_trade_state expQ s e).home_score = e.home_score ∧
    (pre_trade_state expQ s e).away_score = e.away_score := by
  unfold pre_trade_state apply_momentum apply_scores momentum_decay
  cases e.time_seconds <;> split_ifs <;> simp

lemma pre_trade_state_time (expQ : ℚ → ℚ) (s : State) (e : GameEvent) (t : ℚ)
    (h : e.time_seconds = some t) :
    (pre_trade_state expQ s e).time_remaining = t := by
  unfold pre_trade_state apply_momentum apply_scores momentum_decay
  rw [h]
  split_ifs <;> simp

lemma trade_step_state (s : State) :
    (trade_step s).2 = s ∨ (trade_step s).2 = { s with active_orders := [] } := by
  unfold trade_step
  rcases h : should_trade s.model_prob s.market_price with ⟨b, os, q⟩
  cases b <;> cases os <;> simp <;> split_ifs <;> simp

lemma check_risk_management_state (s : State) :
    (check_risk_management s).2.2 = s ∨ (check_risk_management s).2.2 = reset_state := by
  unfold check_risk_management
  dsimp only
  split_ifs <;> simp

lemma check_risk_management_no_trigger_state (s : State)
    (h1 : ¬ s.kelly_fraction * 80000 ≤ s.portfolio_value - 100000)
    (h2 : ¬ s.portfolio_value - 100000 ≤ -s.kelly_fraction * 50000)
    (h3 : ¬ (s.time_remaining < 600 ∧ |s.home_score - s.away_score| < 5 ∧
        s.portfolio_value - 100000 > 55000)) :
    (check_risk_management s).1 = none ∧ (check_risk_management s).2.2 = s := by
  unfold check_risk_management
  dsimp only
  rw [if_neg h1, if_neg h2, if_neg h3]
  exact ⟨rfl, rfl⟩

lemma end_game_step_id (s : State) (e : GameEvent)
    (h : ¬ (e.event_type = "END_GAME" ∨ s.time_remaining < 3)) :
    (end_game_step s e).2 = s := by
  unfold end_game_step
  rw [if_neg h]

lemma end_game_step_state (s : State) (e : GameEvent) :
    (end_game_step s e).2 = reset_state ∨
      ((end_game_step s e).2 = s ∧ ¬ (e.event_type = "END_GAME" ∨ s.time_remaining < 3)) := by
  unfold end_game_step
  split_ifs with h
  · left; rfl
  · right; exact ⟨rfl, h⟩

lemma on_game_event_update_snd (expQ : ℚ → ℚ) (s : State) (e : GameEvent) :
    (on_game_event_update expQ s e).2 =
      (end_game_step
        (check_risk_management
          (update_portfolio_value (trade_step (pre_trade_state expQ s e)).2)).2.2 e).2 := rfl

lemma calculate_true_probability_bounds (s : State) (h : 0 < s.time_remaining) :
    0.05 ≤ calculate_true_probability s ∧ calculate_true_probability s ≤ 0.95 := by
  unfold calculate_true_probability
  rw [if_neg (not_le.2 h)]
  refine ⟨le_max_left _ _, max_le (by norm_num) (min_le_left _ _)⟩

lemma reset_state_model_prob_bounds :
    (0.05 : ℚ) ≤ reset_state.model_prob ∧ reset_state.model_prob ≤ 0.95 := by
  norm_num [reset_state]

/-! ### Claim theorems -/

/-- C6. The price/probability conversion is a round trip:
`probability_to_price (market_price_to_probability p) = p` for every `p`,
with no clamping in either direction. -/
theorem price_probability_round_trip (p : ℚ) :
    probability_to_price (market_price_to_probability p) = p := by
  unfold probability_to_price market_price_to_probability
  ring

/-- C5. `should_trade` returns `(true, BUY, model_prob - market_prob)` when
`model_prob > market_prob + 0.03`, `(true, SELL, market_prob - model_prob)`
when `model_prob < market_prob - 0.03`, and `(false, none, 0)` otherwise,
where `market_prob = (market_price - 50)/100`; a signaled trade always has a
non-negative edge. -/
theorem should_trade_spec (model_prob market_price : ℚ) :
    (model_prob > market_price_to_probability market_price + 0.03 →
      should_trade model_prob market_price
        = (true, some Side.BUY, model_prob - market_price_to_probability market_price)) ∧
    (model_prob < market_price_to_probability market_price - 0.03 →
      should_trade model_prob market_price
        = (true, some Side.SELL, market_price_to_probability market_price - model_prob)) ∧
    (¬ model_prob > market_price_to_probability market_price + 0.03 →
      ¬ model_prob < market_price_to_probability market_price - 0.03 →
      should_trade model_prob market_price = (false, none, 0)) ∧
    ((should_trade model_prob market_price).1 = true →
      0 ≤ (should_trade model_prob market_price).2.2) := by
  unfold should_trade
  dsimp only
  split_ifs with h1 h2 <;>
    refine ⟨?_, ?_, ?_, ?_⟩ <;> intro h <;> simp_all <;> linarith

/-- C5 witness: at `model_prob = 0.6`, `market_price = 55` (market probability
`0.05`), a BUY is signaled with edge `0.6 - 0.05`. -/
theorem should_trade_spec_witness :
    should_trade 0.6 55 = (true, some Side.BUY, 0.6 - market_price_to_probability 55) :=
  (should_trade_spec 0.6 55).1 (by norm_num [market_price_to_probability])

/-- C9. Whenever the early return of `calculate_position_size` for
`upside ≤ 0 ∨ downside ≤ 0` does not fire, both divisors used afterwards
(the odds denominator `downside` and the share denominator `market_price`)
are strictly positive, so neither division is by zero. -/
theorem calculate_position_size_division_safe (side : Side) (market_price : ℚ)
    (h : ¬ (upside side market_price ≤ 0 ∨ downside side market_price ≤ 0)) :
    0 < downside side market_price ∧ 50 < market_price ∧ 0 < market_price := by
  push_neg at h
  obtain ⟨h1, h2⟩ := h
  cases side <;> simp only [upside, downside] at h1 h2 ⊢ <;>
    refine ⟨by linarith, by linarith, by linarith⟩

/-- C9 witness: at `side = BUY`, `market_price = 55` the guard does not fire
and both divisors are positive. -/
theorem calculate_position_size_division_safe_witness :
    0 < downside Side.BUY 55 ∧ 50 < (55 : ℚ) ∧ 0 < (55 : ℚ) :=
  calculate_position_size_division_safe Side.BUY 55 (by norm_num [upside, downside])

/-- C4. `calculate_position_size` is never negative; its early guard
`upside ≤ 0 ∨ downside ≤ 0` is equivalent to
`market_price ≤ 50 ∨ 150 ≤ market_price` on both sides, it returns exactly 0
in that case, and returns at least 1 share otherwise. -/
theorem calculate_position_size_sign (s : State) (probability_edge : ℚ)
    (side : Side) (market_price : ℚ) :
    0 ≤ calculate_position_size s probability_edge side market_price ∧
    ((upside side market_price ≤ 0 ∨ downside side market_price ≤ 0) ↔
      (market_price ≤ 50 ∨ 150 ≤ market_price)) ∧
    ((market_price ≤ 50 ∨ 150 ≤ market_price) →
      calculate_position_size s probability_edge side market_price = 0) ∧
    (50 < market_price → market_price < 150 →
      1 ≤ calculate_position_size s probability_edge side market_price) := by
  have hiff : (upside side market_price ≤ 0 ∨ downside side market_price ≤ 0) ↔
      (market_price ≤ 50 ∨ 150 ≤ market_price) := by
    cases side <;> simp only [upside, downside] <;>
      constructor <;> rintro (h | h) <;> first | (left; linarith) | (right; linarith)
  unfold calculate_position_size
  dsimp only
  by_cases h : upside side market_price ≤ 0 ∨ downside side market_price ≤ 0
  · rw [if_pos h]
    refine ⟨le_refl 0, hiff, fun _ => rfl, fun h1 h2 => absurd (hiff.1 h) ?_⟩
    push_neg
    exact ⟨by linarith, by linarith⟩
  · rw [if_neg h]
    exact ⟨le_trans zero_le_one (le_max_left 1 _), hiff,
      fun hc => absurd (hiff.2 hc) h, fun _ _ => le_max_left 1 _⟩

/-- C4 witness: at `reset_state`, edge `0.5`, BUY, price 55, the size is
non-negative and at least one share; at price 150 it is exactly 0. -/
theorem calculate_position_size_sign_witness :
    (1 ≤ calculate_position_size reset_state 0.5 Side.BUY 55) ∧
    calculate_position_size reset_state 0.5 Side.BUY 150 = 0 :=
  ⟨(calculate_position_size_sign reset_state 0.5 Side.BUY 55).2.2.2
      (by norm_num) (by norm_num),
    (calculate_position_size_sign reset_state 0.5 Side.BUY 150).2.2.1
      (by norm_num)⟩

/-- C3. In `check_risk_management` the take-profit trigger fires exactly when
`pnl = portfolio_value - 100000` satisfies `pnl ≥ kelly_fraction * 80000`;
with `kelly_fraction = 1` (as set by `reset_state`), `portfolio_value =
180001` triggers it, `179999` does not, and `180000` (pnl exactly 80000)
does. -/
theorem take_profit_boundary :
    (∀ s : State, (check_risk_management s).1 = some Trigger.takeProfit ↔
        s.kelly_fraction * 80000 ≤ s.portfolio_value - 100000) ∧
    (check_risk_management { reset_state with portfolio_value := 180001 }).1
      = some Trigger.takeProfit ∧
    (check_risk_management { reset_state with portfolio_value := 179999 }).1
      = none ∧
    (check_risk_management { reset_state with portfolio_value := 180000 }).1
      = some Trigger.takeProfit := by
  have hiff : ∀ s : State, (check_risk_management s).1 = some Trigger.takeProfit ↔
      s.kelly_fraction * 80000 ≤ s.portfolio_value - 100000 := by
    intro s
    unfold check_risk_management
    dsimp only
    split_ifs with h1 h2 h3 <;> simp_all [ge_iff_le]
  refine ⟨hiff, (hiff _).2 (by norm_num [reset_state]), ?_, (hiff _).2 (by norm_num [reset_state])⟩
  exact (check_risk_management_no_trigger_state _
    (by norm_num [reset_state]) (by norm_num [reset_state])
    (by rintro ⟨h1, -, -⟩; norm_num [reset_state] at h1)).1

/-- C10. `get_event_impact` negates the base impact exactly when `home_away`
is the string `"away"`; the event handler adds the impact to `home_momentum`
exactly when `home_away` is `"home"` and to `away_momentum` otherwise, so any
other value of `home_away` (`none`, `"HOME"`, a typo, ...) adds the
un-negated base impact to `away_momentum`. -/
theorem momentum_attribution :
    (∀ (et : String) (st : Option String),
      get_event_impact et (some "away") st = -(base_impact et st)) ∧
    (∀ (et : String) (ha : Option String) (st : Option String), ha ≠ some "away" →
      get_event_impact et ha st = base_impact et st) ∧
    (∀ (s : State) (e : GameEvent), e.home_away = some "home" →
      (apply_momentum s e).home_momentum
        = s.home_momentum + get_event_impact e.event_type e.home_away e.shot_type ∧
      (apply_momentum s e).away_momentum = s.away_momentum) ∧
    (∀ (s : State) (e : GameEvent), e.home_away ≠ some "home" →
      (apply_momentum s e).away_momentum
        = s.away_momentum + get_event_impact e.event_type e.home_away e.shot_type ∧
      (apply_momentum s e).home_momentum = s.home_momentum ∧
      (e.home_away ≠ some "away" →
        (apply_momentum s e).away_momentum
          = s.away_momentum + base_impact e.event_type e.shot_type)) := by
  refine ⟨?_, ?_, ?_, ?_⟩
  · intro et st
    simp [get_event_impact]
  · intro et ha st h
    simp [get_event_impact, h]
  · intro s e h
    simp [apply_momentum, h]
  · intro s e h
    rw [apply_momentum, if_neg h]
    exact ⟨rfl, rfl, fun ha => by simp [get_event_impact, ha]⟩

/-- C10 witness: with `home_away = "HOME"` (a typo for `"home"`), an
un-negated SCORE impact is added to `away_momentum` while `home_momentum` is
unchanged. -/
theorem momentum_attribution_witness :
    (apply_momentum reset_state
        { event_type := "SCORE", home_away := some "HOME",
          home_score := 0, away_score := 0 }).away_momentum
      = reset_state.away_momentum + base_impact "SCORE" none ∧
    (apply_momentum reset_state
        { event_type := "SCORE", home_away := some "HOME",
          home_score := 0, away_score := 0 }).home_momentum
      = reset_state.home_momentum :=
  ⟨((momentum_attribution.2.2.2 reset_state
      { event_type := "SCORE", home_away := some "HOME",
        home_score := 0, away_score := 0 } (by simp)).2.2 (by simp)),
    (momentum_attribution.2.2.2 reset_state
      { event_type := "SCORE", home_away := some "HOME",
        home_score := 0, away_score := 0 } (by simp)).2.1⟩

lemma trade_step_proj (s : State) :
    (trade_step s).2.model_prob = s.model_prob ∧
    (trade_step s).2.time_remaining = s.time_remaining ∧
    (trade_step s).2.cash = s.cash ∧
    (trade_step s).2.position = s.position ∧
    (trade_step s).2.market_price = s.market_price ∧
    (trade_step s).2.kelly_fraction = s.kelly_fraction ∧
    (trade_step s).2.home_score = s.home_score ∧
    (trade_step s).2.away_score = s.away_score := by
  rcases trade_step_state s with h | h <;> rw [h] <;> simp

lemma update_portfolio_value_proj (s : State) :
    (update_portfolio_value s).model_prob = s.model_prob ∧
    (update_portfolio_value s).time_remaining = s.time_remaining ∧
    (update_portfolio_value s).cash = s.cash ∧
    (update_portfolio_value s).position = s.position ∧
    (update_portfolio_value s).market_price = s.market_price ∧
    (update_portfolio_value s).kelly_fraction = s.kelly_fraction ∧
    (update_portfolio_value s).home_score = s.home_score ∧
    (update_portfolio_value s).away_score = s.away_score ∧
    (update_portfolio_value s).portfolio_value = s.cash + s.position * s.market_price := by
  unfold update_portfolio_value
  dsimp only
  exact ⟨rfl, rfl, rfl, rfl, rfl, rfl, rfl, rfl, rfl⟩

lemma pre_trade_state_model_prob (expQ : ℚ → ℚ) (s : State) (e : GameEvent) :
    (pre_trade_state expQ s e).model_prob
      = calculate_true_probability
          (apply_momentum (apply_scores (momentum_decay expQ s e.time_seconds) e) e) ∧
    (pre_trade_state expQ s e).time_remaining
      = (apply_momentum (apply_scores (momentum_decay expQ s e.time_seconds) e) e).time_remaining :=
  ⟨rfl, rfl⟩

/-- C1 counterexample: at a state with `time_remaining = 0` and the home team
ahead, `calculate_true_probability` returns exactly 1, which lies outside
[0.05, 0.95]; the claim `for every strategy state the value lies in
[0.05, 0.95]` is therefore false. -/
theorem calculate_true_probability_out_of_range :
    calculate_true_probability { reset_state with time_remaining := 0, home_score := 1 } = 1 ∧
    0.95 < calculate_true_probability
        { reset_state with time_remaining := 0, home_score := 1 } := by
  have h : calculate_true_probability
      { reset_state with time_remaining := 0, home_score := 1 } = 1 := by
    unfold calculate_true_probability
    norm_num [reset_state]
  exact ⟨h, by rw [h]; norm_num⟩

/-- C1 amended: `calculate_true_probability` lies in [0.05, 0.95] for every
state with `time_remaining > 0`; at `time_remaining ≤ 0` it returns exactly
0, 0.5 or 1; nevertheless `model_prob` lies in [0.05, 0.95] after every
completed `on_game_event_update` (a terminal probability is always followed
in the same call by the end-of-game reset, which restores 0.55). -/
theorem model_prob_clamped :
    (∀ s : State, 0 < s.time_remaining →
      0.05 ≤ calculate_true_probability s ∧ calculate_true_probability s ≤ 0.95) ∧
    (∀ s : State, s.time_remaining ≤ 0 →
      calculate_true_probability s = 0 ∨ calculate_true_probability s = 0.5 ∨
        calculate_true_probability s = 1) ∧
    (∀ (expQ : ℚ → ℚ) (s : State) (e : GameEvent),
      0.05 ≤ (on_game_event_update expQ s e).2.model_prob ∧
        (on_game_event_update expQ s e).2.model_prob ≤ 0.95) := by
  refine ⟨calculate_true_probability_bounds, ?_, ?_⟩
  · intro s h
    unfold calculate_true_probability
    rw [if_pos h]
    split_ifs <;> simp
  · intro expQ s e
    rw [on_game_event_update_snd expQ s e]
    set s3 := apply_momentum (apply_scores (momentum_decay expQ s e.time_seconds) e) e with hs3
    set s4 := pre_trade_state expQ s e with hs4
    set s6 := update_portfolio_value (trade_step s4).2 with hs6
    have h6m : s6.model_prob = calculate_true_probability s3 := by
      rw [hs6]
      rw [(update_portfolio_value_proj _).1, (trade_step_proj _).1,
        (pre_trade_state_model_prob expQ s e).1]
    have h6t : s6.time_remaining = s3.time_remaining := by
      rw [hs6]
      rw [(update_portfolio_value_proj _).2.1, (trade_step_proj _).2.1,
        (pre_trade_state_model_prob expQ s e).2]
    rcases check_risk_management_state s6 with h7 | h7 <;> rw [h7]
    · rcases end_game_step_state s6 e with h8 | ⟨h8, hcond⟩ <;> rw [h8]
      · exact reset_state_model_prob_bounds
      · rw [h6m]
        apply calculate_true_probability_bounds
        push_neg at hcond
        have : (3 : ℚ) ≤ s6.time_remaining := hcond.2
        rw [h6t] at this
        linarith
    · rcases end_game_step_state reset_state e with h8 | ⟨h8, _⟩ <;> rw [h8] <;>
        exact reset_state_model_prob_bounds

/-- C1 witness: the in-range bound applied at `reset_state`
(`time_remaining = 2880 > 0`). -/
theorem model_prob_clamped_witness :
    0.05 ≤ calculate_true_probability reset_state ∧
      calculate_true_probability reset_state ≤ 0.95 :=
  model_prob_clamped.1 reset_state (by norm_num [reset_state])

/-- C7. `portfolio_value = cash + position * market_price` holds at
`reset_state` and after every completed callback (`on_orderbook_update`,
`on_account_update`, `on_game_event_update`). -/
theorem portfolio_value_invariant :
    portfolio_invariant reset_state ∧
    (∀ (s : State) (price : ℚ), portfolio_invariant (on_orderbook_update s price)) ∧
    (∀ (s : State) (side : Side) (price quantity capital_remaining : ℚ),
      portfolio_invariant (on_account_update s side price quantity capital_remaining)) ∧
    (∀ (expQ : ℚ → ℚ) (s : State) (e : GameEvent),
      portfolio_invariant (on_game_event_update expQ s e).2) := by
  have hupv : ∀ s : State, portfolio_invariant (update_portfolio_value s) := by
    intro s
    simp [portfolio_invariant, update_portfolio_value]
  have hreset : portfolio_invariant reset_state := by
    norm_num [portfolio_invariant, reset_state]
  refine ⟨hreset, fun s price => hupv _, ?_, ?_⟩
  · intro s side price quantity capital_remaining
    unfold on_account_update
    cases side <;> exact hupv _
  · intro expQ s e
    rw [on_game_event_update_snd expQ s e]
    set s6 := update_portfolio_value (trade_step (pre_trade_state expQ s e)).2 with hs6
    rcases check_risk_management_state s6 with h7 | h7 <;> rw [h7]
    · rcases end_game_step_state s6 e with h8 | ⟨h8, _⟩ <;> rw [h8]
      · exact hreset
      · exact hupv _
    · rcases end_game_step_state reset_state e with h8 | ⟨h8, _⟩ <;> rw [h8] <;> exact hreset

lemma cancelled_ids_append (l1 l2 : List Action) :
    cancelled_ids (l1 ++ l2) = cancelled_ids l1 ++ cancelled_ids l2 := by
  induction l1 with
  | nil => rfl
  | cons a t ih => cases a <;> simp [cancelled_ids, ih]

lemma cancelled_ids_close_position (s : State) :
    cancelled_ids (close_position_actions s) = [] := by
  unfold close_position_actions
  split_ifs <;> rfl

lemma cancelled_ids_map_cancel (l : List ℤ) :
    cancelled_ids (l.map (fun oid => Action.cancelOrder Ticker.TEAM_A oid)) = l := by
  induction l with
  | nil => rfl
  | cons a t ih => simp [cancelled_ids, ih]

lemma check_risk_management_no_cancel (s : State) :
    cancelled_ids (check_risk_management s).2.1 = [] := by
  unfold check_risk_management
  dsimp only
  split_ifs <;> simp [cancelled_ids, cancelled_ids_close_position]

lemma end_game_step_no_cancel (s : State) (e : GameEvent) :
    cancelled_ids (end_game_step s e).1 = [] := by
  unfold end_game_step
  split_ifs <;> simp [cancelled_ids, cancelled_ids_close_position]

lemma should_trade_shape (p q : ℚ) :
    should_trade p q = (true, some Side.BUY, p - market_price_to_probability q) ∨
    should_trade p q = (true, some Side.SELL, market_price_to_probability q - p) ∨
    should_trade p q = (false, none, 0) := by
  unfold should_trade
  dsimp only
  split_ifs <;> simp

lemma trade_step_cancels (s : State) :
    cancelled_ids (trade_step s).1
      = if (should_trade s.model_prob s.market_price).1 then s.active_orders else [] := by
  rcases should_trade_shape s.model_prob s.market_price with h | h | h <;>
    unfold trade_step <;> rw [h] <;> dsimp only <;>
    simp [cancelled_ids_append, cancelled_ids_map_cancel, cancelled_ids] <;>
    split_ifs <;>
    simp [cancelled_ids_append, cancelled_ids_map_cancel, cancelled_ids]

lemma check_risk_management_reset_of_trigger (s : State)
    (h : (check_risk_management s).1 ≠ none) :
    (check_risk_management s).2.2 = reset_state := by
  unfold check_risk_management at h ⊢
  dsimp only at h ⊢
  split_ifs at h ⊢ <;> simp_all

/-- C8. No reset path calls `cancel_order`: `check_risk_management` cancels
nothing and, when a trigger fires, replaces the state by `reset_state`
(whose `active_orders` is empty); the end-of-game branch cancels nothing;
within `on_game_event_update` the ids passed to `cancel_order` are exactly
the previously tracked `active_orders`, and only when the trade decision
fires. -/
theorem cancel_order_only_in_trade_branch :
    (∀ s : State, cancelled_ids (check_risk_management s).2.1 = [] ∧
      ((check_risk_management s).1 ≠ none →
        (check_risk_management s).2.2 = reset_state)) ∧
    reset_state.active_orders = [] ∧
    (∀ (s : State) (e : GameEvent), cancelled_ids (end_game_step s e).1 = []) ∧
    (∀ (expQ : ℚ → ℚ) (s : State) (e : GameEvent),
      cancelled_ids (on_game_event_update expQ s e).1
        = if (should_trade (pre_trade_state expQ s e).model_prob
                (pre_trade_state expQ s e).market_price).1
          then s.active_orders else []) := by
  refine ⟨fun s => ⟨check_risk_management_no_cancel s,
      check_risk_management_reset_of_trigger s⟩, rfl, end_game_step_no_cancel, ?_⟩
  intro expQ s e
  show cancelled_ids ((trade_step (pre_trade_state expQ s e)).1 ++ _ ++ _) = _
  rw [cancelled_ids_append, cancelled_ids_append, check_risk_management_no_cancel,
    end_game_step_no_cancel, trade_step_cancels, (pre_trade_state_proj expQ s e).2.2.2.2.2.2.2.2.1]
  simp

/-- C8 witness: at a state holding active order 7 with a large take-profit
portfolio value, the risk trigger fires, cancels nothing, and resets the
state (emptying `active_orders`). -/
theorem cancel_order_only_in_trade_branch_witness :
    cancelled_ids (check_risk_management
        { reset_state with portfolio_value := 200000, active_orders := [7] }).2.1 = [] ∧
    (check_risk_management
        { reset_state with portfolio_value := 200000, active_orders := [7] }).2.2
      = reset_state :=
  ⟨(cancel_order_only_in_trade_branch.1 _).1,
    (cancel_order_only_in_trade_branch.1 _).2 (by
      unfold check_risk_management
      dsimp only
      rw [if_pos (by norm_num [reset_state])]
      simp)⟩

/-- A mid-game state: as `reset_state` but with 100 seconds remaining, the
previous event having carried `time_seconds = 100`. -/
def c2_state : State :=
  { reset_state with time_remaining := 100, last_event_time := some 100 }

/-- An event whose `time_seconds` (200) exceeds the current `time_remaining`
(100) of `c2_state`. -/
def c2_event : GameEvent :=
  { event_type := "FOO"
    home_away := some "home"
    home_score := 0
    away_score := 0
    time_seconds := some 200 }

/-- C2 counterexample: from `c2_state` (`time_remaining = 100`, reachable by
an earlier event with `time_seconds = 100`), an event carrying
`time_seconds = 200` leaves `time_remaining = 200 > 100`, with no reset
intervening (the final value is 200, not the reset value 2880): the handler
assigns `time_remaining` from the event unconditionally, so it can increase
within a game.  The only decay factor used on this trace is `exp 0 = 1`,
matched by the concrete `expQ := fun _ => 1`. -/
theorem time_remaining_can_increase :
    c2_state.time_remaining = 100 ∧
    (on_game_event_update (fun _ => 1) c2_state c2_event).2.time_remaining = 200 ∧
    c2_state.time_remaining
      < (on_game_event_update (fun _ => 1) c2_state c2_event).2.time_remaining := by
  have hp := pre_trade_state_proj (fun _ => 1) c2_state c2_event
  have ht := trade_step_proj (pre_trade_state (fun _ => 1) c2_state c2_event)
  have hu := update_portfolio_value_proj
    ((trade_step (pre_trade_state (fun _ => 1) c2_state c2_event)).2)
  set s6 := update_portfolio_value
    ((trade_step (pre_trade_state (fun _ => 1) c2_state c2_event)).2) with hs6
  have h6t : s6.time_remaining = 200 := by
    rw [hs6, hu.2.1, ht.2.1, pre_trade_state_time (fun _ => 1) c2_state c2_event 200 rfl]
  have h6pv : s6.portfolio_value = 100000 := by
    rw [hs6, hu.2.2.2.2.2.2.2.2, ht.2.2.1, ht.2.2.2.1, ht.2.2.2.2.1,
      hp.1, hp.2.1, hp.2.2.1]
    norm_num [c2_state, reset_state]
  have h6kf : s6.kelly_fraction = 1 := by
    rw [hs6, hu.2.2.2.2.2.1, ht.2.2.2.2.2.1, hp.2.2.2.2.1]
    norm_num [c2_state, reset_state]
  have hcr : (check_risk_management s6).2.2 = s6 := by
    refine (check_risk_management_no_trigger_state s6 ?_ ?_ ?_).2
    · rw [h6pv, h6kf]; norm_num
    · rw [h6pv, h6kf]; norm_num
    · rintro ⟨-, -, h3⟩
      rw [h6pv] at h3
      norm_num at h3
  have heg : (end_game_step s6 c2_event).2 = s6 := by
    apply end_game_step_id
    rintro (h | h)
    · exact absurd h (by simp [c2_event])
    · rw [h6t] at h
      norm_num at h
  refine ⟨rfl, ?_, ?_⟩
  · rw [on_game_event_update_snd, hcr, heg, h6t]
  · rw [on_game_event_update_snd, hcr, heg, h6t]
    norm_num [c2_state]

/-- C2 amended: `on_game_event_update` assigns `time_remaining` directly from
the event's `time_seconds` without any monotonicity guard (the
counterexample shows it can increase); when the incoming `time_seconds` does
not exceed the current `time_remaining`, the call leaves `time_remaining`
less than or equal to its previous value, except when a reset fires during
the call, which restores the game-start value 2880. -/
theorem time_remaining_non_increasing_unless_reset (expQ : ℚ → ℚ) (s : State)
    (e : GameEvent) (t : ℚ) (h1 : e.time_seconds = some t)
    (h2 : t ≤ s.time_remaining) :
    (on_game_event_update expQ s e).2.time_remaining ≤ s.time_remaining ∨
    (on_game_event_update expQ s e).2.time_remaining = reset_state.time_remaining := by
  rw [on_game_event_update_snd]
  set s6 := update_portfolio_value ((trade_step (pre_trade_state expQ s e)).2) with hs6
  have h6t : s6.time_remaining = t := by
    rw [hs6, (update_portfolio_value_proj _).2.1, (trade_step_proj _).2.1,
      pre_trade_state_time expQ s e t h1]
  rcases check_risk_management_state s6 with h7 | h7 <;> rw [h7]
  · rcases end_game_step_state s6 e with h8 | ⟨h8, -⟩ <;> rw [h8]
    · right; rfl
    · left
      rw [h6t]
      exact h2
  · rcases end_game_step_state reset_state e with h8 | ⟨h8, -⟩ <;> rw [h8] <;>
      exact Or.inr rfl

/-- C2 witness: from `reset_state` (`time_remaining = 2880`), the event
`c2_event` (`time_seconds = 200 ≤ 2880`) leaves `time_remaining` no larger
than before, or at the reset value. -/
theorem time_remaining_non_increasing_unless_reset_witness :
    (on_game_event_update (fun _ => 1) reset_state c2_event).2.time_remaining
        ≤ reset_state.time_remaining ∨
    (on_game_event_update (fun _ => 1) reset_state c2_event).2.time_remaining
        = reset_state.time_remaining :=
  time_remaining_non_increasing_unless_reset (fun _ => 1) reset_state c2_event 200
    rfl (by norm_num [reset_state])

end LiveTradingAlgo
